import Mathlib

/-!
Verification of the search/discover pagination pipeline of the
paired-ratings web application.

The development shallowly embeds the Go sources:

* internal/tmdb (the tmdb package in web.go / client.go): response shaping of
  provider pages (fetchSearch, yearFromDate, ParseYear);
* internal/handlers/handlers.go: the search pipeline (getSearch, searchTMDB,
  searchWithFilterPaging, applySearchFilters, parseGenreFilter, matchesGenres,
  applySearchSort, tmdbSort, paginateSearchResults, searchFiltersFromRequest).

Modelling conventions, stated once here:

* Go int is modelled as Int (no arithmetic in this pipeline approaches the
  64-bit boundary: requested page numbers pass through an int32 field, so
  every offset fits comfortably);
* float64 fields (vote averages, the minimum-rating filter) are modelled as
  Rat: the pipeline only ever compares these values, never does float
  arithmetic, and comparison of the represented values is the rational
  order (no NaN reaches this code path);
* Go strings.TrimSpace / ToLower / ToUpper / EqualFold are modelled on the
  ASCII subset; every string the claims exercise (media kinds, sort keys,
  ISO language and country codes, numerals) is ASCII;
* strconv.Atoi and strconv.ParseFloat are modelled as exact decimal parsers
  (optional sign, digit run, optional fraction part); the exotic inputs Go
  additionally accepts (exponents, hex floats, Inf) make no difference
  to the claims, which only need parse success on plain numerals and
  parse failure on non-numerals;
* the Go field searchFilters.Sort is modelled as the field SortKey, because
  Sort is a reserved word in Lean;
* the external provider is a pure function from requests to pages, and the
  outbound calls the pipeline issues are returned alongside its result so
  that call-counting claims are statable; the upstream error path (which in
  Go aborts the whole pipeline) is outside every claim here, so provider
  responses are modelled as always delivered;
* the fetch loop of searchWithFilterPaging is fuel-indexed because an
  adversarial provider can keep it running forever in Go as well; running
  out of fuel yields none, and every theorem about the loop is conditioned
  on an actual result.
-/

/-! ## Go standard-library helpers (ASCII models) -/

/-- ASCII whitespace, as trimmed by Go strings.TrimSpace. -/
def isSpaceChar (c : Char) : Bool :=
  c == ' ' || c == '\t' || c == '\n' || c == '\r'

/-- Model of Go strings.TrimSpace (ASCII whitespace). -/
def trimSpace (s : String) : String :=
  String.mk (((s.data.dropWhile isSpaceChar).reverse.dropWhile isSpaceChar).reverse)

/-- Model of Go strings.ToLower on ASCII strings. -/
def asciiToLower (s : String) : String := String.mk (s.data.map Char.toLower)

/-- Model of Go strings.ToUpper on ASCII strings. -/
def asciiToUpper (s : String) : String := String.mk (s.data.map Char.toUpper)

/-- Model of Go strings.EqualFold on ASCII strings: equality up to case. -/
def equalFold (a b : String) : Bool := asciiToLower a == asciiToLower b

/-- Value of a run of decimal digits. -/
def digitsVal (cs : List Char) : Nat :=
  cs.foldl (fun n c => n * 10 + (c.toNat - ('0').toNat)) 0

/-- Sign and magnitude split of the character list of a numeric literal. -/
def signSplit : List Char → (Bool × List Char)
  | '+' :: rest => (false, rest)
  | '-' :: rest => (true, rest)
  | cs => (false, cs)

/-- Model of Go strconv.Atoi: optional sign followed by a non-empty digit
run; anything else is a parse error (none). -/
def goAtoi (s : String) : Option Int :=
  let (neg, ds) := signSplit s.data
  if ds ≠ [] ∧ ds.all Char.isDigit then
    some (if neg then -(digitsVal ds : Int) else (digitsVal ds : Int))
  else none

/-- Model of Go strconv.ParseFloat on the decimal forms this pipeline meets:
optional sign, digit run, optional dot and fraction digit run. -/
def goParseFloat (s : String) : Option Rat :=
  let (neg, rest) := signSplit s.data
  let intPart := rest.takeWhile Char.isDigit
  let rem := rest.drop intPart.length
  let mag : Option Rat :=
    match rem with
    | [] => if intPart ≠ [] then some ((digitsVal intPart : Nat) : Rat) else none
    | '.' :: frac =>
        if intPart ≠ [] ∧ frac ≠ [] ∧ frac.all Char.isDigit then
          some (mkRat ((digitsVal intPart * 10 ^ frac.length + digitsVal frac : Nat) : Int)
            (10 ^ frac.length))
        else none
    | _ => none
  mag.map (fun m => if neg then -m else m)

/-! ## internal/tmdb: data model and helpers -/

/-- tmdb.SearchResult: one shaped provider item. -/
structure SearchResult where
  id : Int
  mediaType : String
  title : String
  year : String
  posterPath : String
  overview : String
  voteAverage : Rat
  voteCount : Int
  genreIDs : List Int
  originCountry : List String
  originalLanguage : String
deriving DecidableEq, Repr

/-- tmdb.SearchPage: one shaped provider page. -/
structure SearchPage where
  results : List SearchResult
  page : Int
  totalPages : Int
  totalResults : Int
deriving DecidableEq, Repr

/-- tmdb.yearFromDate: the first four characters of a release date, or the
empty string when the date is shorter than four characters. -/
def yearFromDate (date : String) : String :=
  if date.length < 4 then "" else String.mk (date.data.take 4)

/-- tmdb.ParseYear: trim, then parse with Atoi; none on empty or
unparseable input. -/
def ParseYear (year : String) : Option Int :=
  let year := trimSpace year
  if year = "" then none
  else goAtoi year

/-! ## internal/handlers: filter criteria -/

/-- handlers.searchFilters (SortKey models the Go field Sort). -/
structure searchFilters where
  MediaType : String
  YearFrom : Option Int
  YearTo : Option Int
  MinRating : Option Rat
  MinVotes : Option Int
  SortKey : String
  Page : Int
  GenreIDs : List Int
  GenreMode : String
  GenreRaw : String
  OriginCountry : String
  OriginalLanguage : String
deriving DecidableEq, Repr

/-- handlers.searchFilters.isEmpty. -/
def searchFilters.isEmptyF (f : searchFilters) : Bool :=
  f.MediaType == "all" &&
  f.YearFrom == none &&
  f.YearTo == none &&
  f.MinRating == none &&
  f.MinVotes == none &&
  f.GenreIDs.isEmpty &&
  f.OriginCountry == "" &&
  f.OriginalLanguage == ""

/-- handlers.matchesGenres: the item genre id set matches the requested
set under the AND (default) or OR combination mode. The Go code loads the
item ids into a hash set; membership in the id list is the same test. -/
def matchesGenres (itemIDs filterIDs : List Int) (mode : String) : Bool :=
  if filterIDs.isEmpty then true
  else if itemIDs.isEmpty then false
  else if mode == "or" then filterIDs.any (fun id => itemIDs.contains id)
  else filterIDs.all (fun id => itemIDs.contains id)

/-- First continue of handlers.applySearchFilters: media kind mismatch. -/
def mediaOk (filters : searchFilters) (item : SearchResult) : Bool :=
  filters.MediaType == "all" || item.mediaType == filters.MediaType

/-- Second continue: vote average below the active minimum rating. -/
def ratingOk (filters : searchFilters) (item : SearchResult) : Bool :=
  match filters.MinRating with
  | none => true
  | some r => !(decide (item.voteAverage < r))

/-- Third continue: vote count below the active minimum votes. -/
def votesOk (filters : searchFilters) (item : SearchResult) : Bool :=
  match filters.MinVotes with
  | none => true
  | some v => !(decide (item.voteCount < v))

/-- Fourth continue block: active original-language filter with an empty or
case-insensitively different item language. -/
def languageOk (filters : searchFilters) (item : SearchResult) : Bool :=
  filters.OriginalLanguage == "" ||
    (!(item.originalLanguage == "") &&
      equalFold item.originalLanguage filters.OriginalLanguage)

/-- Fifth continue block: active origin-country filter with no
case-insensitive match among the item country codes. -/
def countryOk (filters : searchFilters) (item : SearchResult) : Bool :=
  filters.OriginCountry == "" ||
    (!item.originCountry.isEmpty &&
      item.originCountry.any (fun code => equalFold code filters.OriginCountry))

/-- Sixth continue block: active genre filter the item does not match. -/
def genresOk (filters : searchFilters) (item : SearchResult) : Bool :=
  filters.GenreIDs.isEmpty ||
    matchesGenres item.genreIDs filters.GenreIDs filters.GenreMode

/-- Last continue block: an active year bound with a missing or unparseable
item year, or a parsed year out of range. -/
def yearOk (filters : searchFilters) (item : SearchResult) : Bool :=
  if filters.YearFrom ≠ none ∨ filters.YearTo ≠ none then
    match ParseYear item.year with
    | none => false
    | some y =>
        (match filters.YearFrom with | none => true | some a => !(decide (y < a))) &&
        (match filters.YearTo with | none => true | some b => !(decide (b < y)))
  else true

/-- The keep/discard predicate of handlers.applySearchFilters: the loop body
is a chain of continue statements, each conjunct negating one of them, in
source order. -/
def keepItem (filters : searchFilters) (item : SearchResult) : Bool :=
  mediaOk filters item &&
  ratingOk filters item &&
  votesOk filters item &&
  languageOk filters item &&
  countryOk filters item &&
  genresOk filters item &&
  yearOk filters item

/-- handlers.applySearchFilters: keep exactly the items passing every active
predicate (the early return on an empty input list is the identity there
too). -/
def applySearchFilters (items : List SearchResult) (filters : searchFilters) :
    List SearchResult :=
  if items.isEmpty then items else items.filter (keepItem filters)

/-! ## internal/handlers: re-ranker (applySearchSort)

Go sorts with slices.SortFunc and an inline comparator per sort key. The
comparators are modelled verbatim; the sort itself is modelled as mergeSort
with the ordering (comparator result is not gt). Go slices.SortFunc carries
no stability guarantee, but its pdqsort returns an already-sorted input
unchanged (sorted-run detection), which is the one behaviour the idempotence
claim exercises, and mergeSort has the same property. -/

/-- Model of Go cmp.Compare and strings.Compare: lt, eq or gt by the linear
order of the key type. -/
def goCompare {α : Type} [LinearOrder α] (x y : α) : Ordering :=
  if x < y then Ordering.lt else if x = y then Ordering.eq else Ordering.gt

/-- The rating comparator: vote average descending, then vote count
descending, then title ascending. -/
def cmpRating (a b : SearchResult) : Ordering :=
  if a.voteAverage ≠ b.voteAverage then goCompare b.voteAverage a.voteAverage
  else if a.voteCount ≠ b.voteCount then goCompare b.voteCount a.voteCount
  else goCompare a.title b.title

/-- The votes comparator: vote count descending, then vote average
descending, then title ascending. -/
def cmpVotes (a b : SearchResult) : Ordering :=
  if a.voteCount ≠ b.voteCount then goCompare b.voteCount a.voteCount
  else if a.voteAverage ≠ b.voteAverage then goCompare b.voteAverage a.voteAverage
  else goCompare a.title b.title

/-- The year key of the year comparator: the parsed year, or 0 when the
year string does not parse. -/
def sortYearVal (a : SearchResult) : Int := (ParseYear a.year).getD 0

/-- The year comparator: parsed year descending, then title ascending. -/
def cmpYear (a b : SearchResult) : Ordering :=
  if sortYearVal a ≠ sortYearVal b then goCompare (sortYearVal b) (sortYearVal a)
  else goCompare a.title b.title

/-- The title comparator: lower-cased title ascending. -/
def cmpTitle (a b : SearchResult) : Ordering :=
  goCompare (asciiToLower a.title) (asciiToLower b.title)

/-- The default-branch comparator (used when keepRelevance is false and the
key is not one of the named ones): its body is identical to the votes
comparator in the source. -/
def cmpRelevance (a b : SearchResult) : Ordering :=
  if a.voteCount ≠ b.voteCount then goCompare b.voteCount a.voteCount
  else if a.voteAverage ≠ b.voteAverage then goCompare b.voteAverage a.voteAverage
  else goCompare a.title b.title

/-- The sorted-before relation induced by a Go comparator: slices.SortFunc
orders so that the comparator of consecutive elements is never gt. -/
def leOfCmp (cmp : SearchResult → SearchResult → Ordering) (a b : SearchResult) : Bool :=
  cmp a b != Ordering.gt

/-- handlers.applySearchSort: five modes keyed by the sort string; lists of
fewer than two items are returned untouched, and the default key keeps
provider order when keepRelevance is set. -/
def applySearchSort (items : List SearchResult) (sortKey : String)
    (keepRelevance : Bool) : List SearchResult :=
  if items.length < 2 then items
  else
    match sortKey with
    | "rating" => items.mergeSort (leOfCmp cmpRating)
    | "votes" => items.mergeSort (leOfCmp cmpVotes)
    | "year" => items.mergeSort (leOfCmp cmpYear)
    | "title" => items.mergeSort (leOfCmp cmpTitle)
    | _ => if keepRelevance then items else items.mergeSort (leOfCmp cmpRelevance)

/-- handlers.tmdbSort: the provider-side sort key for a requested sort key
and media type. -/
def tmdbSort (sortKey mediaType : String) : String :=
  let sortKey := trimSpace sortKey
  if sortKey == "rating" then "vote_average.desc"
  else if sortKey == "votes" then "vote_count.desc"
  else if sortKey == "year" then
    (if mediaType == "tv" then "first_air_date.desc" else "primary_release_date.desc")
  else if sortKey == "title" then
    (if mediaType == "tv" then "original_name.asc" else "original_title.asc")
  else "popularity.desc"

/-- handlers.paginateSearchResults: clamp a negative offset to 0, an offset
at or past the end yields the empty list, otherwise the slice from offset
to the capped end. -/
def paginateSearchResults (items : List SearchResult) (offset limit : Int) :
    List SearchResult :=
  let offset := if offset < 0 then 0 else offset
  if offset ≥ (items.length : Int) then []
  else
    let stop := if offset + limit > (items.length : Int) then (items.length : Int)
      else offset + limit
    (items.take stop.toNat).drop offset.toNat

/-! ## internal/tmdb: response shaping (fetchSearch) -/

/-- One entry of the decoded provider JSON payload (the anonymous struct in
tmdb.searchResponse). -/
structure RawSearchItem where
  mediaType : String
  title : String
  name : String
  releaseDate : String
  firstAirDate : String
  posterPath : String
  overview : String
  id : Int
  voteAverage : Rat
  voteCount : Int
  genreIDs : List Int
  originCountry : List String
  originalLanguage : String
deriving DecidableEq, Repr

/-- tmdb.searchResponse: the decoded provider page payload. -/
structure RawSearchResponse where
  results : List RawSearchItem
  page : Int
  totalPages : Int
  totalResults : Int
deriving DecidableEq, Repr

/-- The per-item shaping step of tmdb.fetchSearch: the override (when
non-empty) replaces the item media type; items whose effective media type is
neither movie nor tv are dropped (none); title and year come from the
movie or tv fields according to the effective media type. -/
def shapeSearchItem (mediaTypeOverride : String) (r : RawSearchItem) :
    Option SearchResult :=
  let mediaType := if mediaTypeOverride ≠ "" then mediaTypeOverride else r.mediaType
  if mediaType ≠ "movie" ∧ mediaType ≠ "tv" then none
  else some
    { id := r.id
      mediaType := mediaType
      title := if mediaType == "movie" then r.title else r.name
      year := if mediaType == "movie" then yearFromDate r.releaseDate
        else yearFromDate r.firstAirDate
      posterPath := r.posterPath
      overview := r.overview
      voteAverage := r.voteAverage
      voteCount := r.voteCount
      genreIDs := r.genreIDs
      originCountry := r.originCountry
      originalLanguage := r.originalLanguage }

/-- tmdb.fetchSearch, from the decoded payload on: shape and keep the
movie/tv items in order, cap total pages at 500, pass total results
through. -/
def fetchSearch (payload : RawSearchResponse) (mediaTypeOverride : String) :
    SearchPage :=
  { results := payload.results.filterMap (shapeSearchItem mediaTypeOverride)
    page := payload.page
    totalPages := min payload.totalPages 500
    totalResults := payload.totalResults }

/-! ## internal/handlers: request parsing -/

/-- pb.SearchRequest as parseSearchRequest leaves it: trimmed query
parameters (trimming is idempotent, so the further trims inside
searchFiltersFromRequest are modelled as in the source) and the parsed
positive page number (0 when absent). SortKey models the Go field Sort. -/
structure SearchRequest where
  Q : String
  MediaType : String
  YearFrom : String
  YearTo : String
  MinRating : String
  MinVotes : String
  SortKey : String
  Genres : String
  OriginCountry : String
  OriginalLanguage : String
  Page : Int
deriving DecidableEq, Repr

/-- Character-list splitter for the single-character genre separators
(Go strings.Split with separator comma or pipe). -/
def splitOnChar (sep : Char) : List Char → List (List Char)
  | [] => [[]]
  | c :: rest =>
      let r := splitOnChar sep rest
      if c == sep then [] :: r
      else
        match r with
        | [] => [[c]]
        | h :: t => (c :: h) :: t

/-- Model of Go strings.Join. -/
def joinWithSep (sep : String) : List String → String
  | [] => ""
  | [x] => x
  | x :: rest => x ++ sep ++ joinWithSep sep rest

/-- handlers.parseGenreFilter: ids, combination mode and the rebuilt raw
genre string of a genres query parameter. A pipe anywhere selects OR mode
and the pipe separator, otherwise AND mode and the comma separator; parts
that do not parse to a positive id are skipped; no surviving id collapses
to the empty filter. -/
def parseGenreFilter (raw0 : String) : List Int × String × String :=
  let raw := trimSpace raw0
  if raw = "" then ([], "and", "")
  else
    let usePipe := raw.data.contains '|'
    let mode := if usePipe then "or" else "and"
    let sep : Char := if usePipe then '|' else ','
    let parts := (splitOnChar sep raw.data).map String.mk
    let ids := parts.filterMap (fun part =>
      let part := trimSpace part
      if part = "" then none
      else
        match goAtoi part with
        | some val => if val > 0 then some val else none
        | none => none)
    if ids.isEmpty then ([], "and", "")
    else
      (ids, mode,
        joinWithSep (String.mk [sep]) (ids.map (fun id => toString id)))

/-- handlers.searchFiltersFromRequest: trim and parse every filter query
parameter; malformed or non-positive numeric values are dropped (the
corresponding filter stays inactive), an unknown media kind becomes all,
an unknown sort key becomes relevance, a non-positive page becomes 1. -/
def searchFiltersFromRequest (req : SearchRequest) : searchFilters :=
  let mediaType0 := trimSpace req.MediaType
  let mediaType := if mediaType0 ≠ "movie" ∧ mediaType0 ≠ "tv" then "all" else mediaType0
  let yearFrom := if trimSpace req.YearFrom ≠ "" then goAtoi (trimSpace req.YearFrom) else none
  let yearTo := if trimSpace req.YearTo ≠ "" then goAtoi (trimSpace req.YearTo) else none
  let minRating :=
    if trimSpace req.MinRating ≠ "" then
      match goParseFloat (trimSpace req.MinRating) with
      | some parsed => if parsed > 0 then some parsed else none
      | none => none
    else none
  let minVotes :=
    if trimSpace req.MinVotes ≠ "" then
      match goAtoi (trimSpace req.MinVotes) with
      | some parsed => if parsed > 0 then some parsed else none
      | none => none
    else none
  let originCountry0 := trimSpace req.OriginCountry
  let originCountry := if originCountry0 ≠ "" then asciiToUpper originCountry0 else originCountry0
  let originalLanguage0 := trimSpace req.OriginalLanguage
  let originalLanguage :=
    if originalLanguage0 ≠ "" then asciiToLower originalLanguage0 else originalLanguage0
  let genre := parseGenreFilter (trimSpace req.Genres)
  let page := if req.Page > 0 then req.Page else 1
  let sort0 := trimSpace req.SortKey
  let sortKey :=
    if sort0 = "rating" ∨ sort0 = "year" ∨ sort0 = "title" ∨ sort0 = "votes" then sort0
    else "relevance"
  { MediaType := mediaType
    YearFrom := yearFrom
    YearTo := yearTo
    MinRating := minRating
    MinVotes := minVotes
    SortKey := sortKey
    Page := page
    GenreIDs := genre.1
    GenreMode := genre.2.1
    GenreRaw := genre.2.2
    OriginCountry := originCountry
    OriginalLanguage := originalLanguage }

/-! ## internal/handlers: the pagination stitcher and the search pipeline -/

/-- tmdb.DiscoverFilters (SortKey models the Go field Sort). -/
structure DiscoverFilters where
  YearFrom : Option Int
  YearTo : Option Int
  MinRating : Option Rat
  MinVotes : Option Int
  Genres : String
  SortKey : String
  OriginCountry : String
  OriginalLanguage : String
deriving DecidableEq, Repr

/-- handlers.searchPage: the pipeline-level result page. -/
structure searchPage where
  results : List SearchResult
  page : Int
  totalPages : Int
  totalResults : Int
deriving DecidableEq, Repr

/-- One outbound provider request issued by the pipeline. -/
inductive ProviderCall where
  | searchCall (query mediaType : String) (page : Int)
  | discoverCall (mediaType : String) (filters : DiscoverFilters) (page : Int)
deriving DecidableEq, Repr

/-- The metadata provider as a pure response function (the upstream error
path aborts the Go pipeline and is outside every claim here). -/
structure Provider where
  searchPage : String → String → Int → SearchPage
  discoverPage : String → DiscoverFilters → Int → SearchPage

/-- The mutable state of the fetch loop in searchWithFilterPaging, plus the
list of provider pages fetched so far (instrumentation). -/
structure LoopState where
  collected : List SearchResult
  totalResults : Int
  totalPages : Int
  tmdbPage : Int
  calls : List Int
  exhausted : Bool
deriving DecidableEq, Repr

/-- The fetch loop of handlers.searchWithFilterPaging, fuel-indexed: while
fewer than need items are collected, fetch the current provider page, adopt
its positive totals, append its (optionally filtered) items, and stop as
exhausted when the current page number has reached the provider-reported
page total (or that total is 0); otherwise advance to the next page. -/
def searchLoop (fetch : Int → SearchPage) (filters : searchFilters) (applyF : Bool)
    (need : Int) : Nat → LoopState → Option LoopState
  | 0, _ => none
  | fuel + 1, st =>
    if (st.collected.length : Int) < need then
      let pageData := fetch st.tmdbPage
      let tp := if pageData.totalPages > 0 then pageData.totalPages else st.totalPages
      let tr := if pageData.totalResults > 0 then pageData.totalResults else st.totalResults
      let newItems := if applyF then applySearchFilters pageData.results filters
        else pageData.results
      let coll := st.collected ++ newItems
      if st.tmdbPage ≥ pageData.totalPages ∨ pageData.totalPages = 0 then
        some { collected := coll, totalResults := tr, totalPages := tp,
               tmdbPage := st.tmdbPage, calls := st.calls ++ [st.tmdbPage],
               exhausted := true }
      else
        searchLoop fetch filters applyF need fuel
          { collected := coll, totalResults := tr, totalPages := tp,
            tmdbPage := st.tmdbPage + 1, calls := st.calls ++ [st.tmdbPage],
            exhausted := false }
    else some st

/-- handlers.searchWithFilterPaging: clamp the page, derive the offset and
the starting provider page (page 1 when accumulating from the first page,
the direct mapping otherwise), run the fetch loop, optionally re-sort the
accumulator, slice the window, and on provider exhaustion recompute the
totals from the accumulator. Returns the page and the provider page numbers
fetched. -/
def searchWithFilterPaging (fetch : Int → SearchPage) (filters0 : searchFilters)
    (perPage remotePageSize : Int) (startFromFirst applyF : Bool) (fuel : Nat) :
    Option (searchPage × List Int) :=
  let filters := if filters0.Page < 1 then { filters0 with Page := 1 } else filters0
  let offset0 := (filters.Page - 1) * perPage
  let offset := if startFromFirst then offset0 else offset0 % remotePageSize
  let startPage := if startFromFirst then 1
    else (filters.Page - 1) * perPage / remotePageSize + 1
  match searchLoop fetch filters applyF (offset + perPage) fuel
      { collected := [], totalResults := 0, totalPages := 1,
        tmdbPage := startPage, calls := [], exhausted := false } with
  | none => none
  | some st =>
      let collected :=
        if applyF && filters.SortKey != "relevance" then
          applySearchSort st.collected filters.SortKey false
        else st.collected
      let paged := paginateSearchResults collected offset perPage
      let totals : Int × Int :=
        if st.exhausted then
          let ft0 := (collected.length : Int)
          let ft := if filters.Page > 1 then
              max ft0 ((filters.Page - 1) * perPage + (paged.length : Int))
            else ft0
          (ft, if ft > 0 then (ft + perPage - 1) / perPage else 1)
        else (st.totalResults, st.totalPages)
      some ({ results := paged, page := filters.Page,
              totalPages := totals.2, totalResults := totals.1 }, st.calls)

/-- The discover filter block searchTMDB builds from the search filters;
the Go code assigns the Sort field just before each discover call, which is
the mediaType argument here. -/
def discoverFiltersFromSearch (filters : searchFilters) (mediaType : String) :
    DiscoverFilters :=
  { YearFrom := filters.YearFrom
    YearTo := filters.YearTo
    MinRating := filters.MinRating
    MinVotes := filters.MinVotes
    Genres := filters.GenreRaw
    SortKey := tmdbSort filters.SortKey mediaType
    OriginCountry := filters.OriginCountry
    OriginalLanguage := filters.OriginalLanguage }

/-- handlers.searchTMDB: the text-search path stitches provider search
pages (accumulating from page 1 exactly when a filter or non-default sort
is active); the query-less path returns the empty page on empty filters,
one discover page for an explicit media kind, and the movie/tv fan-out
otherwise. The provider calls issued are returned alongside. -/
def searchTMDB (provider : Provider) (fuel : Nat) (query : String)
    (filters0 : searchFilters) : Option (searchPage × List ProviderCall) :=
  let filters := if filters0.Page < 1 then { filters0 with Page := 1 } else filters0
  if query ≠ "" then
    let mediaType := trimSpace filters.MediaType
    match searchWithFilterPaging (fun page => provider.searchPage query mediaType page)
        filters 20 20 (!filters.isEmptyF || filters.SortKey != "relevance") true fuel with
    | none => none
    | some (out, pages) =>
        some (out, pages.map (fun p => ProviderCall.searchCall query mediaType p))
  else if filters.isEmptyF then
    some ({ results := [], page := 0, totalPages := 0, totalResults := 0 }, [])
  else if filters.MediaType = "movie" ∨ filters.MediaType = "tv" then
    let df := discoverFiltersFromSearch filters filters.MediaType
    let pageData := provider.discoverPage filters.MediaType df filters.Page
    some ({ results := pageData.results, page := filters.Page,
            totalPages := pageData.totalPages, totalResults := pageData.totalResults },
      [ProviderCall.discoverCall filters.MediaType df filters.Page])
  else
    let dfMovie := discoverFiltersFromSearch filters "movie"
    let movies := provider.discoverPage "movie" dfMovie filters.Page
    let dfTv := discoverFiltersFromSearch filters "tv"
    let tv := provider.discoverPage "tv" dfTv filters.Page
    some ({ results := movies.results ++ tv.results, page := filters.Page,
            totalPages := max movies.totalPages tv.totalPages,
            totalResults := movies.totalResults + tv.totalResults },
      [ProviderCall.discoverCall "movie" dfMovie filters.Page,
       ProviderCall.discoverCall "tv" dfTv filters.Page])

/-- The observable outcome of handlers.getSearch up to the point the claims
reach: request rejection, a delivered page, or loop fuel running out.
Downstream of searchTMDB the Go handler only reshapes the page into the
response (library lookup, genre names) and preserves the result list and
the three counts, so that reshaping is not modelled. -/
inductive SearchOutcome where
  | badRequest
  | ok (page : searchPage)
  | fuelOut
deriving DecidableEq, Repr

/-- handlers.getSearch: trim the query, build the filters, reject a
non-empty query without an explicit movie/tv media kind before any provider
work, otherwise run searchTMDB. Returns the outcome and the provider calls
issued. -/
def getSearch (provider : Provider) (fuel : Nat) (req : SearchRequest) :
    SearchOutcome × List ProviderCall :=
  let query := trimSpace req.Q
  let filters := searchFiltersFromRequest req
  if query ≠ "" ∧ filters.MediaType ≠ "movie" ∧ filters.MediaType ≠ "tv" then
    (SearchOutcome.badRequest, [])
  else
    match searchTMDB provider fuel query filters with
    | none => (SearchOutcome.fuelOut, [])
    | some (pageData, calls) => (SearchOutcome.ok pageData, calls)

/-! ## Specification-side predicates and sort keys (for the theorems) -/

/-- The specification reading of the attribute filter: an item satisfies
every active predicate of the criteria. Written in the vocabulary of the
spec (inclusive bounds, case-insensitive matches, AND/OR genre modes,
parseable year in range) to be compared with the code predicate keepItem. -/
def SatisfiesSearchFilters (filters : searchFilters) (x : SearchResult) : Prop :=
  (filters.MediaType ≠ "all" → x.mediaType = filters.MediaType) ∧
  (∀ r, filters.MinRating = some r → r ≤ x.voteAverage) ∧
  (∀ v, filters.MinVotes = some v → v ≤ x.voteCount) ∧
  (filters.OriginalLanguage ≠ "" →
    equalFold x.originalLanguage filters.OriginalLanguage = true) ∧
  (filters.OriginCountry ≠ "" →
    ∃ code ∈ x.originCountry, equalFold code filters.OriginCountry = true) ∧
  (filters.GenreIDs ≠ [] →
    (if filters.GenreMode = "or" then ∃ id ∈ filters.GenreIDs, id ∈ x.genreIDs
     else ∀ id ∈ filters.GenreIDs, id ∈ x.genreIDs)) ∧
  ((filters.YearFrom ≠ none ∨ filters.YearTo ≠ none) →
    ∃ y, ParseYear x.year = some y ∧
      (∀ a, filters.YearFrom = some a → a ≤ y) ∧
      (∀ b, filters.YearTo = some b → y ≤ b))

/-- The lexicographic key realizing the rating comparator: vote average
descending, vote count descending, title ascending. -/
def keyRating (a : SearchResult) : Lex ((OrderDual Rat) × Lex ((OrderDual Int) × String)) :=
  toLex (OrderDual.toDual a.voteAverage, toLex (OrderDual.toDual a.voteCount, a.title))

/-- The lexicographic key realizing the votes comparator (and the default
comparator, whose body is identical). -/
def keyVotes (a : SearchResult) : Lex ((OrderDual Int) × Lex ((OrderDual Rat) × String)) :=
  toLex (OrderDual.toDual a.voteCount, toLex (OrderDual.toDual a.voteAverage, a.title))

/-- The lexicographic key realizing the year comparator. -/
def keyYear (a : SearchResult) : Lex ((OrderDual Int) × String) :=
  toLex (OrderDual.toDual (sortYearVal a), a.title)

/-- The key realizing the title comparator. -/
def keyTitle (a : SearchResult) : String := asciiToLower a.title

/-- Provider page numbers 1, 2, ..., k. -/
def intPages (k : Nat) : List Int := (List.range' 1 k).map (fun n => Int.ofNat n)

/-- Concatenation of the per-page item lists of provider pages 1..k. -/
def pagesAcc (pageItems : Int → List SearchResult) (k : Nat) : List SearchResult :=
  ((intPages k).map pageItems).flatten

/-- What one iteration of the fetch loop appends for provider page p. -/
def pageItemsOf (fetch : Int → SearchPage) (filters : searchFilters) (applyF : Bool)
    (p : Int) : List SearchResult :=
  if applyF then applySearchFilters (fetch p).results filters else (fetch p).results

/-- The filtered accumulator contents after provider pages 1..k. -/
def filteredAccUpTo (fetch : Int → SearchPage) (filters : searchFilters) (k : Nat) :
    List SearchResult :=
  pagesAcc (pageItemsOf fetch filters true) k

/-! ## Concrete fixtures for witnesses and counterexamples -/

/-- A minimal movie item with the given id. -/
def demoItem (n : Int) : SearchResult :=
  { id := n, mediaType := "movie", title := "t", year := "", posterPath := "",
    overview := "", voteAverage := 0, voteCount := 0, genreIDs := [],
    originCountry := [], originalLanguage := "" }

/-- A three-page provider: 20, 15 and 10 items (ids 0..44), three pages in
total — the 45-survivor scenario of the specification. -/
def demoFetchA : Int → SearchPage := fun p =>
  if p = 1 then
    { results := (List.range 20).map (fun i => demoItem i), page := 1,
      totalPages := 3, totalResults := 45 }
  else if p = 2 then
    { results := (List.range 15).map (fun i => demoItem (20 + i)), page := 2,
      totalPages := 3, totalResults := 45 }
  else
    { results := (List.range 10).map (fun i => demoItem (35 + i)), page := 3,
      totalPages := 3, totalResults := 45 }

/-- Application page 2, default sort, no criteria. -/
def filtersPage2 : searchFilters :=
  { MediaType := "all", YearFrom := none, YearTo := none, MinRating := none,
    MinVotes := none, SortKey := "relevance", Page := 2, GenreIDs := [],
    GenreMode := "and", GenreRaw := "", OriginCountry := "", OriginalLanguage := "" }

/-- Application page 3, default sort, no criteria. -/
def filtersPage3 : searchFilters := { filtersPage2 with Page := 3 }

/-- A provider with a single page of 10 items. -/
def cexFetchOne : Int → SearchPage := fun _ =>
  { results := (List.range 10).map (fun i => demoItem i), page := 1,
    totalPages := 1, totalResults := 10 }

/-- A provider whose discover endpoint always returns 20 items out of a
reported 135 results over 7 pages. -/
def bigProvider : Provider :=
  { searchPage := fun _ _ _ => cexFetchOne 1
    discoverPage := fun _ _ _ =>
      { results := (List.range 20).map (fun i => demoItem i), page := 1,
        totalPages := 7, totalResults := 135 } }

/-- A query-less all-types request with one active filter. -/
def allFilters : searchFilters :=
  { filtersPage2 with MinRating := some 7, Page := 1 }

/-- A request with a non-empty query, a valid media kind and an unparseable
minimum rating. -/
def badRatingReq : SearchRequest :=
  { Q := "x", MediaType := "movie", YearFrom := "", YearTo := "",
    MinRating := "abc", MinVotes := "", SortKey := "", Genres := "",
    OriginCountry := "", OriginalLanguage := "", Page := 0 }

/-- A payload whose provider-reported totals disagree after the 500-page
cap: 600 pages, 12000 results. -/
def overflowPayload : RawSearchResponse :=
  { results := [], page := 1, totalPages := 600, totalResults := 12000 }

/-! ## Helper lemmas -/

theorem asciiToLower_eq_empty_iff (s : String) : asciiToLower s = "" ↔ s = "" := by
  constructor
  · intro h
    have h2 := congrArg String.data h
    simp only [asciiToLower] at h2
    have h3 : s.data = [] := List.map_eq_nil_iff.mp h2
    cases s with
    | mk data =>
        rw [show data = [] from h3]
  · intro h
    rw [h]
    rfl

theorem equalFold_ne_empty {s t : String} (ht : t ≠ "") (h : equalFold s t = true) :
    s ≠ "" := by
  intro hs
  subst hs
  unfold equalFold at h
  have h1 : asciiToLower "" = asciiToLower t := by
    exact beq_iff_eq.mp h
  have h2 : asciiToLower t = "" := h1.symm.trans (by rfl)
  exact ht ((asciiToLower_eq_empty_iff t).mp h2)

theorem mediaOk_iff (filters : searchFilters) (x : SearchResult) :
    mediaOk filters x = true ↔
      (filters.MediaType ≠ "all" → x.mediaType = filters.MediaType) := by
  simp [mediaOk, or_iff_not_imp_left]

theorem ratingOk_iff (filters : searchFilters) (x : SearchResult) :
    ratingOk filters x = true ↔ (∀ r, filters.MinRating = some r → r ≤ x.voteAverage) := by
  unfold ratingOk
  cases h : filters.MinRating <;> simp [not_lt]

theorem votesOk_iff (filters : searchFilters) (x : SearchResult) :
    votesOk filters x = true ↔ (∀ v, filters.MinVotes = some v → v ≤ x.voteCount) := by
  unfold votesOk
  cases h : filters.MinVotes <;> simp [not_lt]

theorem languageOk_iff (filters : searchFilters) (x : SearchResult) :
    languageOk filters x = true ↔
      (filters.OriginalLanguage ≠ "" →
        equalFold x.originalLanguage filters.OriginalLanguage = true) := by
  unfold languageOk
  by_cases h : filters.OriginalLanguage = ""
  · simp [h]
  · simp only [Bool.or_eq_true, Bool.and_eq_true, beq_iff_eq, Bool.not_eq_true']
    constructor
    · intro hor _
      rcases hor with h1 | h1
      · exact absurd h1 h
      · exact h1.2
    · intro himp
      right
      refine ⟨?_, himp h⟩
      have := equalFold_ne_empty h (himp h)
      simp [beq_iff_eq]
      exact this

theorem countryOk_iff (filters : searchFilters) (x : SearchResult) :
    countryOk filters x = true ↔
      (filters.OriginCountry ≠ "" →
        ∃ code ∈ x.originCountry, equalFold code filters.OriginCountry = true) := by
  unfold countryOk
  by_cases h : filters.OriginCountry = ""
  · simp [h]
  · simp only [Bool.or_eq_true, Bool.and_eq_true, beq_iff_eq, List.any_eq_true,
      Bool.not_eq_true']
    constructor
    · intro hor _
      rcases hor with h1 | h1
      · exact absurd h1 h
      · exact h1.2
    · intro himp
      right
      obtain ⟨code, hc, hcf⟩ := himp h
      refine ⟨?_, code, hc, hcf⟩
      simp [List.isEmpty_iff]
      exact List.ne_nil_of_mem hc
      
theorem matchesGenres_iff (itemIDs ids : List Int) (mode : String) (hne : ids ≠ []) :
    matchesGenres itemIDs ids mode = true ↔
      (if mode = "or" then ∃ id ∈ ids, id ∈ itemIDs else ∀ id ∈ ids, id ∈ itemIDs) := by
  unfold matchesGenres
  have hids : ids.isEmpty = false := by simpa [List.isEmpty_iff] using hne
  rw [hids]
  by_cases hit : itemIDs.isEmpty = true
  · have hitnil : itemIDs = [] := List.isEmpty_iff.mp hit
    subst hitnil
    rw [if_neg (by simp), if_pos hit]
    by_cases hm : mode = "or"
    · simp [hm]
    · rw [if_neg hm]
      constructor
      · intro hfalse
        exact absurd hfalse (by simp)
      · intro hall
        obtain ⟨i, hi⟩ := List.exists_mem_of_ne_nil ids hne
        exact absurd (hall i hi) (by simp)
  · rw [if_neg (by simp), if_neg hit]
    by_cases hm : mode = "or"
    · rw [if_pos (by simp [hm]), if_pos hm]
      simp [List.any_eq_true, List.elem_iff, List.contains]
    · rw [if_neg (by simp [hm]), if_neg hm]
      simp [List.all_eq_true, List.elem_iff, List.contains]

theorem genresOk_iff (filters : searchFilters) (x : SearchResult) :
    genresOk filters x = true ↔
      (filters.GenreIDs ≠ [] →
        (if filters.GenreMode = "or" then ∃ id ∈ filters.GenreIDs, id ∈ x.genreIDs
         else ∀ id ∈ filters.GenreIDs, id ∈ x.genreIDs)) := by
  unfold genresOk
  by_cases hne : filters.GenreIDs = []
  · simp [hne, List.isEmpty_iff]
  · have hids : filters.GenreIDs.isEmpty = false := by
      simpa [List.isEmpty_iff] using hne
    simp only [hids, Bool.false_or]
    rw [matchesGenres_iff x.genreIDs filters.GenreIDs filters.GenreMode hne]
    constructor
    · intro h _
      exact h
    · intro h
      exact h hne

theorem yearOk_iff (filters : searchFilters) (x : SearchResult) :
    yearOk filters x = true ↔
      ((filters.YearFrom ≠ none ∨ filters.YearTo ≠ none) →
        ∃ y, ParseYear x.year = some y ∧
          (∀ a, filters.YearFrom = some a → a ≤ y) ∧
          (∀ b, filters.YearTo = some b → y ≤ b)) := by
  unfold yearOk
  by_cases hact : filters.YearFrom ≠ none ∨ filters.YearTo ≠ none
  · rw [if_pos hact]
    cases hp : ParseYear x.year with
    | none => simp [hact]
    | some y =>
        simp only [Bool.and_eq_true]
        constructor
        · intro ⟨hfrom, hto⟩ _
          refine ⟨y, rfl, ?_, ?_⟩
          · intro a ha
            rw [ha] at hfrom
            simpa [not_lt] using hfrom
          · intro b hb
            rw [hb] at hto
            simpa [not_lt] using hto
        · intro h
          obtain ⟨y2, hy2, hfrom, hto⟩ := h hact
          have hyy : y2 = y := (Option.some_inj.mp hy2).symm
          subst hyy
          constructor
          · cases hf : filters.YearFrom with
            | none => rfl
            | some a => simpa [not_lt] using hfrom a hf
          · cases hf : filters.YearTo with
            | none => rfl
            | some b => simpa [not_lt] using hto b hf
  · rw [if_neg hact]
    simp [hact]

theorem keepItem_iff (filters : searchFilters) (x : SearchResult) :
    keepItem filters x = true ↔ SatisfiesSearchFilters filters x := by
  unfold keepItem SatisfiesSearchFilters
  simp only [Bool.and_eq_true, mediaOk_iff, ratingOk_iff, votesOk_iff, languageOk_iff,
    countryOk_iff, genresOk_iff, yearOk_iff, and_assoc]

/-- C5: applySearchFilters returns a subsequence of its input containing
exactly the items satisfying every active predicate of the criteria:
media-kind match, inclusive minimum rating and votes, case-insensitive
language and country match, genre match under the AND/OR mode, and a
parseable in-range year whenever a year bound is active (items without a
parseable year are excluded exactly when a year bound is active). -/
theorem c5_filter_exact :
    (∀ (items : List SearchResult) (filters : searchFilters),
      (applySearchFilters items filters).Sublist items) ∧
    (∀ (items : List SearchResult) (filters : searchFilters) (x : SearchResult),
      x ∈ applySearchFilters items filters ↔
        x ∈ items ∧ SatisfiesSearchFilters filters x) := by
  constructor
  · intro items filters
    unfold applySearchFilters
    by_cases h : items.isEmpty = true
    · rw [if_pos h]
    · rw [if_neg h]
      exact List.filter_sublist items
  · intro items filters x
    unfold applySearchFilters
    by_cases h : items.isEmpty = true
    · rw [if_pos h, List.isEmpty_iff.mp h]
      simp
    · rw [if_neg h, List.mem_filter, keepItem_iff]

/-- C8: for a non-empty genre filter set, an AND-mode match implies an
OR-mode match, and over any item universe the AND-filtered result is a
subset of the OR-filtered result. -/
theorem c8_genre_and_implies_or :
    (∀ (itemIDs filterIDs : List Int), filterIDs ≠ [] →
      matchesGenres itemIDs filterIDs "and" = true →
      matchesGenres itemIDs filterIDs "or" = true) ∧
    (∀ (items : List SearchResult) (filterIDs : List Int), filterIDs ≠ [] →
      items.filter (fun r => matchesGenres r.genreIDs filterIDs "and")
        ⊆ items.filter (fun r => matchesGenres r.genreIDs filterIDs "or")) := by
  have main : ∀ (itemIDs filterIDs : List Int), filterIDs ≠ [] →
      matchesGenres itemIDs filterIDs "and" = true →
      matchesGenres itemIDs filterIDs "or" = true := by
    intro itemIDs ids hne hand
    rw [matchesGenres_iff itemIDs ids "and" hne] at hand
    rw [matchesGenres_iff itemIDs ids "or" hne]
    rw [if_neg (by decide)] at hand
    rw [if_pos rfl]
    obtain ⟨i, hi⟩ := List.exists_mem_of_ne_nil ids hne
    exact ⟨i, hi, hand i hi⟩
  refine ⟨main, ?_⟩
  intro items ids hne r hr
  rw [List.mem_filter] at hr ⊢
  exact ⟨hr.1, main _ ids hne hr.2⟩

/-- C9: the client caps the provider-reported page total at 500 while the
result total passes through uncapped, so the two can disagree: there is a
payload whose returned page total is below the 20-per-page ceiling of its
returned result total. -/
theorem c9_total_pages_capped :
    (∀ (payload : RawSearchResponse) (override : String),
      (fetchSearch payload override).totalPages ≤ 500) ∧
    (∀ (payload : RawSearchResponse) (override : String),
      (fetchSearch payload override).totalResults = payload.totalResults) ∧
    (∃ (payload : RawSearchResponse) (override : String),
      (fetchSearch payload override).totalPages
        < ((fetchSearch payload override).totalResults + 19) / 20) :=
  ⟨fun payload _ => min_le_right payload.totalPages 500,
   fun _ _ => rfl,
   ⟨overflowPayload, "", by decide⟩⟩

theorem shapeSearchItem_mediaType (o : String) (x : RawSearchItem) (r : SearchResult)
    (h : shapeSearchItem o x = some r) :
    (r.mediaType = "movie" ∨ r.mediaType = "tv") ∧ (o ≠ "" → r.mediaType = o) := by
  simp only [shapeSearchItem] at h
  generalize hmt0 : (if o ≠ "" then o else x.mediaType) = mt at h
  split at h
  · exact absurd h (by simp)
  · rename_i hcond
    have hrec := Option.some_inj.mp h
    have hmt : r.mediaType = mt := by rw [← hrec]
    refine ⟨?_, ?_⟩
    · rcases not_and_or.mp hcond with h1 | h1
      · exact Or.inl (hmt.trans (not_ne_iff.mp h1))
      · exact Or.inr (hmt.trans (not_ne_iff.mp h1))
    · intro ho
      rw [hmt, ← hmt0, if_pos ho]

/-- C10: every shaped client result has media kind movie or tv (anything
else, such as a person entry, is dropped), and a non-empty media-kind
override stamps every kept result with that kind. -/
theorem c10_media_kind_shaping :
    (∀ (payload : RawSearchResponse) (override : String) (r : SearchResult),
      r ∈ (fetchSearch payload override).results →
      r.mediaType = "movie" ∨ r.mediaType = "tv") ∧
    (∀ (payload : RawSearchResponse) (override : String) (r : SearchResult),
      override ≠ "" → r ∈ (fetchSearch payload override).results →
      r.mediaType = override) := by
  constructor
  · intro payload o r hr
    simp only [fetchSearch] at hr
    obtain ⟨a, _, hfa⟩ := List.mem_filterMap.mp hr
    exact (shapeSearchItem_mediaType o a r hfa).1
  · intro payload o r ho hr
    simp only [fetchSearch] at hr
    obtain ⟨a, _, hfa⟩ := List.mem_filterMap.mp hr
    exact (shapeSearchItem_mediaType o a r hfa).2 ho

/-! ## Sort machinery -/

theorem goCompare_self {α : Type} [LinearOrder α] (x : α) :
    goCompare x x = Ordering.eq := by
  simp [goCompare]

theorem goCompare_eq_lt_iff {α : Type} [LinearOrder α] {x y : α} :
    goCompare x y = Ordering.lt ↔ x < y := by
  unfold goCompare
  split_ifs with h1 h2
  · exact iff_of_true rfl h1
  · exact iff_of_false (by simp) h1
  · exact iff_of_false (by simp) h1

theorem goCompare_eq_eq_iff {α : Type} [LinearOrder α] {x y : α} :
    goCompare x y = Ordering.eq ↔ x = y := by
  unfold goCompare
  split_ifs with h1 h2
  · exact iff_of_false (by simp) (ne_of_lt h1)
  · exact iff_of_true rfl h2
  · exact iff_of_false (by simp) h2

theorem goCompare_eq_gt_iff {α : Type} [LinearOrder α] {x y : α} :
    goCompare x y = Ordering.gt ↔ y < x := by
  unfold goCompare
  split_ifs with h1 h2
  · exact iff_of_false (by simp) (asymm h1)
  · exact iff_of_false (by simp) (by rw [h2]; exact lt_irrefl y)
  · exact iff_of_true rfl (((lt_trichotomy x y).resolve_left h1).resolve_left h2)

theorem goCompare_bne_gt_iff {α : Type} [LinearOrder α] {x y : α} :
    (goCompare x y != Ordering.gt) = true ↔ x ≤ y := by
  cases hgc : goCompare x y with
  | lt => exact iff_of_true rfl (le_of_lt (goCompare_eq_lt_iff.mp hgc))
  | eq => exact iff_of_true rfl (le_of_eq (goCompare_eq_eq_iff.mp hgc))
  | gt => exact iff_of_false (by decide) (not_le.mpr (goCompare_eq_gt_iff.mp hgc))

theorem goCompare_toDual {α : Type} [LinearOrder α] (x y : α) :
    goCompare (OrderDual.toDual x) (OrderDual.toDual y) = goCompare y x := by
  unfold goCompare
  simp only [OrderDual.toDual_lt_toDual, OrderDual.toDual_inj]
  exact if_congr Iff.rfl rfl (if_congr eq_comm rfl rfl)

theorem goCompare_lex {α β : Type} [LinearOrder α] [LinearOrder β]
    (x1 y1 : α) (x2 y2 : β) :
    goCompare (toLex (x1, x2)) (toLex (y1, y2)) =
      (goCompare x1 y1).then (goCompare x2 y2) := by
  rcases lt_trichotomy x1 y1 with h | h | h
  · have hl : toLex (x1, x2) < toLex (y1, y2) := (Prod.Lex.lt_iff _ _).mpr (Or.inl h)
    have hr : goCompare x1 y1 = Ordering.lt := goCompare_eq_lt_iff.mpr h
    rw [hr]
    unfold goCompare
    rw [if_pos hl]
    rfl
  · subst h
    have hc : goCompare (toLex (x1, x2)) (toLex (x1, y2)) = goCompare x2 y2 := by
      unfold goCompare
      refine if_congr ?_ rfl (if_congr ?_ rfl rfl)
      · rw [Prod.Lex.lt_iff]
        simp
      · rw [toLex_inj]
        simp [Prod.ext_iff]
    rw [hc, goCompare_self]
    rfl
  · have h1 : ¬ toLex (x1, x2) < toLex (y1, y2) := by
      rw [Prod.Lex.lt_iff]
      push_neg
      exact ⟨le_of_lt h, fun he => absurd he (ne_of_gt h)⟩
    have h2 : ¬ toLex (x1, x2) = toLex (y1, y2) := by
      rw [toLex_inj]
      intro he
      exact absurd (congrArg Prod.fst he) (ne_of_gt h)
    have hr : goCompare x1 y1 = Ordering.gt := goCompare_eq_gt_iff.mpr h
    rw [hr]
    unfold goCompare
    rw [if_neg h1, if_neg h2]
    rfl

theorem ite_ne_goCompare_then {α : Type} [LinearOrder α] (x y : α) (rest : Ordering) :
    (if x ≠ y then goCompare y x else rest) = (goCompare y x).then rest := by
  by_cases h : x = y
  · rw [if_neg (not_ne_iff.mpr h), h, goCompare_self]
    rfl
  · rw [if_pos h]
    cases hgc : goCompare y x with
    | lt => rfl
    | eq => exact absurd (goCompare_eq_eq_iff.mp hgc) (fun e => h e.symm)
    | gt => rfl

theorem cmpRating_eq_key (a b : SearchResult) :
    cmpRating a b = goCompare (keyRating a) (keyRating b) := by
  unfold cmpRating keyRating
  rw [goCompare_lex, goCompare_lex, goCompare_toDual, goCompare_toDual,
    ite_ne_goCompare_then, ite_ne_goCompare_then]

theorem cmpVotes_eq_key (a b : SearchResult) :
    cmpVotes a b = goCompare (keyVotes a) (keyVotes b) := by
  unfold cmpVotes keyVotes
  rw [goCompare_lex, goCompare_lex, goCompare_toDual, goCompare_toDual,
    ite_ne_goCompare_then, ite_ne_goCompare_then]

theorem cmpRelevance_eq_key (a b : SearchResult) :
    cmpRelevance a b = goCompare (keyVotes a) (keyVotes b) := by
  unfold cmpRelevance keyVotes
  rw [goCompare_lex, goCompare_lex, goCompare_toDual, goCompare_toDual,
    ite_ne_goCompare_then, ite_ne_goCompare_then]

theorem cmpYear_eq_key (a b : SearchResult) :
    cmpYear a b = goCompare (keyYear a) (keyYear b) := by
  unfold cmpYear keyYear
  rw [goCompare_lex, goCompare_toDual, ite_ne_goCompare_then]

theorem cmpTitle_eq_key (a b : SearchResult) :
    cmpTitle a b = goCompare (keyTitle a) (keyTitle b) := rfl

theorem leOfCmp_iff_of_key {γ : Type} [LinearOrder γ]
    {cmp : SearchResult → SearchResult → Ordering} {key : SearchResult → γ}
    (hk : ∀ a b, cmp a b = goCompare (key a) (key b)) (a b : SearchResult) :
    leOfCmp cmp a b = true ↔ key a ≤ key b := by
  unfold leOfCmp
  rw [hk]
  exact goCompare_bne_gt_iff

theorem leOfCmp_trans_of_key {γ : Type} [LinearOrder γ]
    {cmp : SearchResult → SearchResult → Ordering} {key : SearchResult → γ}
    (hk : ∀ a b, cmp a b = goCompare (key a) (key b)) :
    ∀ a b c, leOfCmp cmp a b = true → leOfCmp cmp b c = true →
      leOfCmp cmp a c = true := by
  intro a b c h1 h2
  exact (leOfCmp_iff_of_key hk a c).mpr
    (le_trans ((leOfCmp_iff_of_key hk a b).mp h1) ((leOfCmp_iff_of_key hk b c).mp h2))

theorem leOfCmp_total_of_key {γ : Type} [LinearOrder γ]
    {cmp : SearchResult → SearchResult → Ordering} {key : SearchResult → γ}
    (hk : ∀ a b, cmp a b = goCompare (key a) (key b)) :
    ∀ a b, (leOfCmp cmp a b || leOfCmp cmp b a) = true := by
  intro a b
  rcases le_total (key a) (key b) with h | h
  · rw [Bool.or_eq_true]
    exact Or.inl ((leOfCmp_iff_of_key hk a b).mpr h)
  · rw [Bool.or_eq_true]
    exact Or.inr ((leOfCmp_iff_of_key hk b a).mpr h)

theorem mergeSort_fix_of_key {γ : Type} [LinearOrder γ]
    {cmp : SearchResult → SearchResult → Ordering} {key : SearchResult → γ}
    (hk : ∀ a b, cmp a b = goCompare (key a) (key b)) (l : List SearchResult) :
    (l.mergeSort (leOfCmp cmp)).mergeSort (leOfCmp cmp) = l.mergeSort (leOfCmp cmp) :=
  List.mergeSort_of_sorted
    (List.sorted_mergeSort (leOfCmp_trans_of_key hk) (leOfCmp_total_of_key hk) l)

theorem applySearchSort_small {items : List SearchResult} (h : items.length < 2)
    (k : String) (kr : Bool) : applySearchSort items k kr = items := by
  unfold applySearchSort
  rw [if_pos h]

theorem applySearchSort_rating {items : List SearchResult} (h : ¬ items.length < 2)
    (kr : Bool) : applySearchSort items "rating" kr = items.mergeSort (leOfCmp cmpRating) := by
  unfold applySearchSort
  rw [if_neg h]
  rfl

theorem applySearchSort_votes {items : List SearchResult} (h : ¬ items.length < 2)
    (kr : Bool) : applySearchSort items "votes" kr = items.mergeSort (leOfCmp cmpVotes) := by
  unfold applySearchSort
  rw [if_neg h]
  rfl

theorem applySearchSort_year {items : List SearchResult} (h : ¬ items.length < 2)
    (kr : Bool) : applySearchSort items "year" kr = items.mergeSort (leOfCmp cmpYear) := by
  unfold applySearchSort
  rw [if_neg h]
  rfl

theorem applySearchSort_title {items : List SearchResult} (h : ¬ items.length < 2)
    (kr : Bool) : applySearchSort items "title" kr = items.mergeSort (leOfCmp cmpTitle) := by
  unfold applySearchSort
  rw [if_neg h]
  rfl

theorem applySearchSort_default {items : List SearchResult} (h : ¬ items.length < 2)
    {k : String} (h1 : k ≠ "rating") (h2 : k ≠ "votes") (h3 : k ≠ "year")
    (h4 : k ≠ "title") (kr : Bool) :
    applySearchSort items k kr =
      if kr then items else items.mergeSort (leOfCmp cmpRelevance) := by
  unfold applySearchSort
  rw [if_neg h]
  split <;> simp_all

theorem applySearchSort_length (items : List SearchResult) (k : String) (kr : Bool) :
    (applySearchSort items k kr).length = items.length := by
  by_cases hlen : items.length < 2
  · rw [applySearchSort_small hlen]
  · by_cases e1 : k = "rating"
    · subst e1
      rw [applySearchSort_rating hlen, List.length_mergeSort]
    · by_cases e2 : k = "votes"
      · subst e2
        rw [applySearchSort_votes hlen, List.length_mergeSort]
      · by_cases e3 : k = "year"
        · subst e3
          rw [applySearchSort_year hlen, List.length_mergeSort]
        · by_cases e4 : k = "title"
          · subst e4
            rw [applySearchSort_title hlen, List.length_mergeSort]
          · rw [applySearchSort_default hlen e1 e2 e3 e4]
            by_cases hkr : kr = true
            · rw [if_pos hkr]
            · rw [if_neg hkr, List.length_mergeSort]

theorem applySearchSort_idem (k : String) (kr : Bool) (items : List SearchResult) :
    applySearchSort (applySearchSort items k kr) k kr = applySearchSort items k kr := by
  by_cases hlen : items.length < 2
  · rw [applySearchSort_small hlen, applySearchSort_small hlen]
  · have hlen2 : ¬ (applySearchSort items k kr).length < 2 := by
      rw [applySearchSort_length]
      exact hlen
    by_cases e1 : k = "rating"
    · subst e1
      rw [applySearchSort_rating hlen2, applySearchSort_rating hlen]
      exact mergeSort_fix_of_key cmpRating_eq_key items
    · by_cases e2 : k = "votes"
      · subst e2
        rw [applySearchSort_votes hlen2, applySearchSort_votes hlen]
        exact mergeSort_fix_of_key cmpVotes_eq_key items
      · by_cases e3 : k = "year"
        · subst e3
          rw [applySearchSort_year hlen2, applySearchSort_year hlen]
          exact mergeSort_fix_of_key cmpYear_eq_key items
        · by_cases e4 : k = "title"
          · subst e4
            rw [applySearchSort_title hlen2, applySearchSort_title hlen]
            exact mergeSort_fix_of_key cmpTitle_eq_key items
          · rw [applySearchSort_default hlen2 e1 e2 e3 e4,
              applySearchSort_default hlen e1 e2 e3 e4]
            by_cases hkr : kr = true
            · rw [if_pos hkr, if_pos hkr]
            · rw [if_neg hkr, if_neg hkr]
              exact mergeSort_fix_of_key cmpRelevance_eq_key items

/-- C7: re-applying applySearchSort with the same key to an already-sorted
list returns it unchanged (sorting is idempotent) for every sort key, and
each comparator of the re-ranker orders totally and transitively (tie-break
chains ending in a title comparison), so the sorted order is deterministic. -/
theorem c7_sort_idempotent_deterministic :
    (∀ (sortKey : String) (keepRelevance : Bool) (items : List SearchResult),
      applySearchSort (applySearchSort items sortKey keepRelevance) sortKey keepRelevance
        = applySearchSort items sortKey keepRelevance) ∧
    (∀ cmp ∈ [cmpRating, cmpVotes, cmpYear, cmpTitle, cmpRelevance],
      (∀ a b, (leOfCmp cmp a b || leOfCmp cmp b a) = true) ∧
      (∀ a b c, leOfCmp cmp a b = true → leOfCmp cmp b c = true →
        leOfCmp cmp a c = true)) := by
  constructor
  · exact applySearchSort_idem
  · intro cmp hc
    simp only [List.mem_cons, List.not_mem_nil, or_false] at hc
    rcases hc with rfl | rfl | rfl | rfl | rfl
    · exact ⟨leOfCmp_total_of_key cmpRating_eq_key, leOfCmp_trans_of_key cmpRating_eq_key⟩
    · exact ⟨leOfCmp_total_of_key cmpVotes_eq_key, leOfCmp_trans_of_key cmpVotes_eq_key⟩
    · exact ⟨leOfCmp_total_of_key cmpYear_eq_key, leOfCmp_trans_of_key cmpYear_eq_key⟩
    · exact ⟨leOfCmp_total_of_key cmpTitle_eq_key, leOfCmp_trans_of_key cmpTitle_eq_key⟩
    · exact ⟨leOfCmp_total_of_key cmpRelevance_eq_key, leOfCmp_trans_of_key cmpRelevance_eq_key⟩

/-! ## The fetch loop characterization -/

theorem intPages_zero : intPages 0 = [] := rfl

theorem pagesAcc_zero (f : Int → List SearchResult) : pagesAcc f 0 = [] := rfl

theorem intPages_succ (m : Nat) : intPages (m + 1) = intPages m ++ [(m : Int) + 1] := by
  unfold intPages
  rw [List.range'_concat, List.map_append]
  congr 1
  simp [Int.ofNat_eq_coe]
  ring

theorem pagesAcc_succ (f : Int → List SearchResult) (m : Nat) :
    pagesAcc f (m + 1) = pagesAcc f m ++ f ((m : Int) + 1) := by
  unfold pagesAcc
  rw [intPages_succ, List.map_append, List.flatten_append]
  simp

theorem filteredAccUpTo_def (fetch : Int → SearchPage) (filters : searchFilters) (k : Nat) :
    filteredAccUpTo fetch filters k = pagesAcc (pageItemsOf fetch filters true) k := rfl

theorem searchLoop_characterize (fetch : Int → SearchPage) (filters : searchFilters)
    (applyF : Bool) (need : Int) (hneed : 0 < need) :
    ∀ (fuel m : Nat) (tr tp : Int) (st : LoopState),
      (∀ j : Nat, 1 ≤ j → j ≤ m →
        ¬ ((j : Int) ≥ (fetch (j : Int)).totalPages ∨ (fetch (j : Int)).totalPages = 0)) →
      (∀ j : Nat, 1 ≤ j → j < m →
        ((pagesAcc (pageItemsOf fetch filters applyF) j).length : Int) < need) →
      searchLoop fetch filters applyF need fuel
          { collected := pagesAcc (pageItemsOf fetch filters applyF) m,
            totalResults := tr, totalPages := tp, tmdbPage := (m : Int) + 1,
            calls := intPages m, exhausted := false } = some st →
      ∃ k : Nat, m ≤ k ∧ 1 ≤ k ∧
        st.calls = intPages k ∧
        st.collected = pagesAcc (pageItemsOf fetch filters applyF) k ∧
        (((pagesAcc (pageItemsOf fetch filters applyF) k).length : Int) ≥ need ∨
          ((k : Int) ≥ (fetch (k : Int)).totalPages ∨ (fetch (k : Int)).totalPages = 0)) ∧
        (st.exhausted = true ↔
          ((k : Int) ≥ (fetch (k : Int)).totalPages ∨ (fetch (k : Int)).totalPages = 0)) ∧
        (∀ j : Nat, 1 ≤ j → j < k →
          ((pagesAcc (pageItemsOf fetch filters applyF) j).length : Int) < need ∧
          ¬ ((j : Int) ≥ (fetch (j : Int)).totalPages ∨ (fetch (j : Int)).totalPages = 0)) := by
  intro fuel
  induction fuel with
  | zero =>
      intro m tr tp st _ _ hrun
      simp [searchLoop] at hrun
  | succ fuel ih =>
      intro m tr tp st hstop hlen hrun
      simp only [searchLoop] at hrun
      by_cases hc : ((pagesAcc (pageItemsOf fetch filters applyF) m).length : Int) < need
      · rw [if_pos hc] at hrun
        have hpi : (if applyF then applySearchFilters (fetch ((m : Int) + 1)).results filters
            else (fetch ((m : Int) + 1)).results)
            = pageItemsOf fetch filters applyF ((m : Int) + 1) := rfl
        rw [hpi] at hrun
        rw [show pagesAcc (pageItemsOf fetch filters applyF) m
              ++ pageItemsOf fetch filters applyF ((m : Int) + 1)
            = pagesAcc (pageItemsOf fetch filters applyF) (m + 1)
          from (pagesAcc_succ _ m).symm] at hrun
        rw [show intPages m ++ [(m : Int) + 1] = intPages (m + 1)
          from (intPages_succ m).symm] at hrun
        have hcast : ((m + 1 : Nat) : Int) = (m : Int) + 1 := by push_cast; ring
        by_cases hex : ((m : Int) + 1 ≥ (fetch ((m : Int) + 1)).totalPages ∨
            (fetch ((m : Int) + 1)).totalPages = 0)
        · rw [if_pos hex] at hrun
          have hst := Option.some_inj.mp hrun
          subst hst
          refine ⟨m + 1, Nat.le_succ m, Nat.succ_le_succ (Nat.zero_le m), rfl, rfl, ?_, ?_, ?_⟩
          · right
            rw [hcast]
            exact hex
          · rw [hcast]
            exact iff_of_true rfl hex
          · intro j hj1 hj2
            have hj2m : j ≤ m := Nat.lt_succ_iff.mp hj2
            refine ⟨?_, hstop j hj1 hj2m⟩
            rcases Nat.lt_or_ge j m with hlt | hge
            · exact hlen j hj1 hlt
            · rw [Nat.le_antisymm hj2m hge]
              exact hc
        · rw [if_neg hex] at hrun
          rw [show (m : Int) + 1 + 1 = ((m + 1 : Nat) : Int) + 1 by push_cast; ring] at hrun
          obtain ⟨k, hk0, hk1, hcalls, hcoll, hexit, hexh, hmin⟩ :=
            ih (m + 1) _ _ st
              (by
                intro j hj1 hj2
                rcases Nat.lt_or_ge j (m + 1) with hlt | hge
                · exact hstop j hj1 (Nat.lt_succ_iff.mp hlt)
                · have : j = m + 1 := Nat.le_antisymm hj2 hge
                  subst this
                  rw [hcast]
                  exact hex)
              (by
                intro j hj1 hj2
                have hj2m : j ≤ m := Nat.lt_succ_iff.mp hj2
                rcases Nat.lt_or_ge j m with hlt | hge
                · exact hlen j hj1 hlt
                · rw [Nat.le_antisymm hj2m hge]
                  exact hc)
              hrun
          exact ⟨k, Nat.le_trans (Nat.le_succ m) hk0, hk1, hcalls, hcoll, hexit, hexh, hmin⟩
      · rw [if_neg hc] at hrun
        have hst := Option.some_inj.mp hrun
        subst hst
        have hm : 1 ≤ m := by
          by_contra hm0
          have hm0 : m = 0 := by omega
          subst hm0
          rw [pagesAcc_zero] at hc
          exact hc (by simpa using hneed)
        refine ⟨m, Nat.le_refl m, hm, rfl, rfl, Or.inl (not_lt.mp hc), ?_, ?_⟩
        · exact iff_of_false (by simp) (hstop m hm (Nat.le_refl m))
        · intro j hj1 hj2
          exact ⟨hlen j hj1 hj2, hstop j hj1 (Nat.le_of_lt hj2)⟩

/-- C1: on the accumulate-from-first-page path, searchWithFilterPaging
fetches provider pages 1, 2, ..., k in order, appends the filtered
survivors of each fetched page to the accumulator, and stops fetching
exactly when the accumulator holds at least offset + 20 items
(offset = (page-1)*20) or the current provider page number has reached the
provider-reported page total. -/
theorem c1_stitcher_accumulates_from_page_one
    (fetch : Int → SearchPage) (filters : searchFilters) (fuel : Nat) (st : LoopState)
    (offset : Int) (hpage : 1 ≤ filters.Page) (hoff : offset = (filters.Page - 1) * 20)
    (hrun : searchLoop fetch filters true (offset + 20) fuel
        { collected := [], totalResults := 0, totalPages := 1, tmdbPage := 1,
          calls := [], exhausted := false } = some st) :
    (∀ out calls, searchWithFilterPaging fetch filters 20 20 true true fuel
        = some (out, calls) → calls = st.calls) ∧
    ∃ k : Nat, 1 ≤ k ∧ st.calls = intPages k ∧
      st.collected = filteredAccUpTo fetch filters k ∧
      (((filteredAccUpTo fetch filters k).length : Int) ≥ offset + 20 ∨
        (k : Int) ≥ (fetch (k : Int)).totalPages) ∧
      (st.exhausted = true ↔ (k : Int) ≥ (fetch (k : Int)).totalPages) ∧
      (∀ j : Nat, 1 ≤ j → j < k →
        ((filteredAccUpTo fetch filters j).length : Int) < offset + 20 ∧
        (j : Int) < (fetch (j : Int)).totalPages) := by
  have hoff0 : 0 ≤ offset := by
    rw [hoff]
    have h20 : (0 : Int) ≤ 20 := by norm_num
    exact mul_nonneg (by omega) h20
  have hneed : (0 : Int) < offset + 20 := by omega
  constructor
  · intro out calls hswp
    have hcl : (if filters.Page < 1 then { filters with Page := 1 } else filters)
        = filters := if_neg (not_lt.mpr hpage)
    simp only [searchWithFilterPaging, hcl, if_true] at hswp
    rw [← hoff] at hswp
    rw [hrun] at hswp
    simp only [] at hswp
    have hpair := Option.some_inj.mp hswp
    exact (congrArg Prod.snd hpair).symm
  · have hinit : ({ collected := [], totalResults := 0, totalPages := 1, tmdbPage := 1,
                    calls := [], exhausted := false } : LoopState)
        = { collected := pagesAcc (pageItemsOf fetch filters true) 0,
            totalResults := 0, totalPages := 1, tmdbPage := ((0 : Nat) : Int) + 1,
            calls := intPages 0, exhausted := false } := by
      rfl
    rw [hinit] at hrun
    obtain ⟨k, _, hk1, hcalls, hcoll, hexit, hexh, hmin⟩ :=
      searchLoop_characterize fetch filters true (offset + 20) hneed fuel 0 0 1 st
        (by intro j hj1 hj0; omega) (by intro j hj1 hj0; omega) hrun
    have hknn : (0 : Int) ≤ (k : Int) := Int.natCast_nonneg k
    have hstop_iff : ((k : Int) ≥ (fetch (k : Int)).totalPages ∨
        (fetch (k : Int)).totalPages = 0) ↔ (k : Int) ≥ (fetch (k : Int)).totalPages := by
      constructor
      · intro h
        rcases h with h | h
        · exact h
        · omega
      · exact Or.inl
    refine ⟨k, hk1, hcalls, ?_, ?_, ?_, ?_⟩
    · rw [filteredAccUpTo_def]
      exact hcoll
    · rw [filteredAccUpTo_def]
      rcases hexit with h | h
      · exact Or.inl h
      · exact Or.inr (hstop_iff.mp h)
    · rw [← hstop_iff]
      exact hexh
    · intro j hj1 hj2
      obtain ⟨hl, hs⟩ := hmin j hj1 hj2
      rw [filteredAccUpTo_def]
      refine ⟨hl, ?_⟩
      by_contra hge
      exact hs (Or.inl (not_lt.mp hge))

/-! ## Windowing lemmas -/

theorem paginate_window (items : List SearchResult) (offset : Int) (hoff : 0 ≤ offset) :
    paginateSearchResults items offset 20 = (items.drop offset.toNat).take 20 := by
  unfold paginateSearchResults
  rw [if_neg (not_lt.mpr hoff)]
  by_cases hend : offset ≥ (items.length : Int)
  · rw [if_pos hend]
    have hlen : items.length ≤ offset.toNat := by omega
    rw [List.drop_eq_nil_of_le hlen]
    rfl
  · rw [if_neg hend]
    push_neg at hend
    by_cases hstop : offset + 20 > (items.length : Int)
    · rw [if_pos hstop]
      show List.drop offset.toNat (List.take ((items.length : Int)).toNat items)
        = List.take 20 (List.drop offset.toNat items)
      have h1 : ((items.length : Int)).toNat = items.length := by omega
      rw [h1, List.take_length]
      have h2 : (items.drop offset.toNat).length ≤ 20 := by
        rw [List.length_drop]
        omega
      rw [List.take_of_length_le h2]
    · rw [if_neg hstop]
      show List.drop offset.toNat (List.take (offset + 20).toNat items)
        = List.take 20 (List.drop offset.toNat items)
      rw [List.drop_take]
      congr 1
      omega

theorem paginate_length_le (items : List SearchResult) (offset : Int) :
    (paginateSearchResults items offset 20).length ≤ 20 := by
  by_cases hoff : 0 ≤ offset
  · rw [paginate_window items offset hoff, List.length_take]
    omega
  · have hneg : offset < 0 := by omega
    unfold paginateSearchResults
    rw [if_pos hneg]
    have h0 : paginateSearchResults items 0 20 = (items.drop (0 : Int).toNat).take 20 :=
      paginate_window items 0 (by norm_num)
    unfold paginateSearchResults at h0
    rw [if_neg (by norm_num : ¬ (0 : Int) < 0)] at h0
    rw [h0, List.length_take]
    omega

theorem paginate_beyond_empty (items : List SearchResult) (offset : Int)
    (hoff : 0 ≤ offset) (hbeyond : (items.length : Int) ≤ offset) :
    paginateSearchResults items offset 20 = [] := by
  unfold paginateSearchResults
  rw [if_neg (not_lt.mpr hoff), if_pos hbeyond]

/-- C3 (amended): windowing slices the exact range and never errs — the
window is drop-then-take, holds at most 20 items, and an offset at or past
the end yields the empty list — and on the stitched (text-search) path the
returned result list is exactly the window of the (possibly re-sorted)
accumulator at offset (page-1)*20; the query-less discover paths return the
provider page lists unsliced (see the counterexample with 40 items). -/
theorem c3_window_exact :
    (∀ (items : List SearchResult) (offset : Int), 0 ≤ offset →
      paginateSearchResults items offset 20 = (items.drop offset.toNat).take 20) ∧
    (∀ (items : List SearchResult) (offset : Int),
      (paginateSearchResults items offset 20).length ≤ 20) ∧
    (∀ (items : List SearchResult) (offset : Int), 0 ≤ offset →
      (items.length : Int) ≤ offset → paginateSearchResults items offset 20 = []) ∧
    (∀ (fetch : Int → SearchPage) (filters : searchFilters) (fuel : Nat)
      (out : searchPage) (calls : List Int), 1 ≤ filters.Page →
      searchWithFilterPaging fetch filters 20 20 true true fuel = some (out, calls) →
      ∃ st, searchLoop fetch filters true ((filters.Page - 1) * 20 + 20) fuel
          { collected := [], totalResults := 0, totalPages := 1, tmdbPage := 1,
            calls := [], exhausted := false } = some st ∧
        out.results = paginateSearchResults
          (if filters.SortKey ≠ "relevance" then
            applySearchSort st.collected filters.SortKey false
           else st.collected)
          ((filters.Page - 1) * 20) 20 ∧
        out.results.length ≤ 20) := by
  refine ⟨paginate_window, paginate_length_le, paginate_beyond_empty, ?_⟩
  intro fetch filters fuel out calls hpage hswp
  have hcl : (if filters.Page < 1 then { filters with Page := 1 } else filters)
      = filters := if_neg (not_lt.mpr hpage)
  simp only [searchWithFilterPaging, hcl, if_true, Bool.true_and] at hswp
  cases hloop : searchLoop fetch filters true ((filters.Page - 1) * 20 + 20) fuel
      { collected := [], totalResults := 0, totalPages := 1, tmdbPage := 1,
        calls := [], exhausted := false } with
  | none =>
      rw [hloop] at hswp
      exact absurd hswp (by simp)
  | some st =>
      rw [hloop] at hswp
      simp only [] at hswp
      have hrec := Option.some_inj.mp hswp
      injection hrec with hfst hsnd
      refine ⟨st, rfl, ?_, ?_⟩
      · rw [← hfst]
        show paginateSearchResults
            (if (filters.SortKey != "relevance") = true then
              applySearchSort st.collected filters.SortKey false
             else st.collected) ((filters.Page - 1) * 20) 20
          = paginateSearchResults
            (if filters.SortKey ≠ "relevance" then
              applySearchSort st.collected filters.SortKey false
             else st.collected) ((filters.Page - 1) * 20) 20
        congr 1
        exact if_congr (by simp) rfl rfl
      · rw [← hfst]
        exact paginate_length_le _ _

/-- C3 counterexample: a query-less all-types discover request returns the
two provider result lists concatenated and unsliced — 40 items, more than
one application page — so the pipeline result is not always the 20-item
window of a filtered accumulator. -/
theorem c3_counterexample :
    ∃ pr, searchTMDB bigProvider 10 "" allFilters = some pr ∧
      20 < pr.1.results.length :=
  ⟨_, rfl, by decide⟩

theorem sortedSelect_length (c : Prop) [Decidable c] (l : List SearchResult) (k : String) :
    (if c then applySearchSort l k false else l).length = l.length := by
  by_cases h : c
  · rw [if_pos h, applySearchSort_length]
  · rw [if_neg h]

/-- C2 (amended): when the fetch loop stops because the provider was
exhausted, searchWithFilterPaging recomputes the returned totals from the
accumulator instead of trusting the provider: total_results is the number
of accumulated filtered items, floored — when the requested page is past 1 —
at offset plus the number of returned items, and total_pages is
ceil(total_results/20), at least 1. In the 45-survivor scenario (20/15/10
across three provider pages, application page 2) this returns accumulator
items [20:40] with total_pages 3 and total_results 45. -/
theorem c2_exhausted_recomputes_totals
    (fetch : Int → SearchPage) (filters : searchFilters) (fuel : Nat)
    (st : LoopState) (out : searchPage) (calls : List Int)
    (hpage : 1 ≤ filters.Page)
    (hrun : searchLoop fetch filters true ((filters.Page - 1) * 20 + 20) fuel
        { collected := [], totalResults := 0, totalPages := 1, tmdbPage := 1,
          calls := [], exhausted := false } = some st)
    (hex : st.exhausted = true)
    (hout : searchWithFilterPaging fetch filters 20 20 true true fuel
        = some (out, calls)) :
    (out.totalResults = if 1 < filters.Page then
        max (st.collected.length : Int)
          ((filters.Page - 1) * 20 + (out.results.length : Int))
      else (st.collected.length : Int)) ∧
    out.totalPages = (if 0 < out.totalResults then (out.totalResults + 19) / 20 else 1) ∧
    searchWithFilterPaging demoFetchA filtersPage2 20 20 true true 10 =
      some ({ results := (List.range' 20 20).map (fun n => demoItem (Int.ofNat n)),
              page := 2, totalPages := 3, totalResults := 45 }, [1, 2, 3]) := by
  have hcl : (if filters.Page < 1 then { filters with Page := 1 } else filters)
      = filters := if_neg (not_lt.mpr hpage)
  simp only [searchWithFilterPaging, hcl, if_true, Bool.true_and] at hout
  rw [hrun] at hout
  simp only [hex, if_true, eq_self_iff_true, if_pos] at hout
  have hrec := Option.some_inj.mp hout
  injection hrec with hfst hsnd
  have hlen : ((if (filters.SortKey != "relevance") = true then
      applySearchSort st.collected filters.SortKey false
    else st.collected).length : Int) = (st.collected.length : Int) := by
    rw [sortedSelect_length]
  refine ⟨?_, ?_, by decide⟩
  · rw [← hfst]
    simp only []
    rw [hlen]
  · rw [← hfst]
    simp only []
    rw [hlen]
    have h19 : ∀ z : Int, z + 20 - 1 = z + 19 := fun z => by ring
    rw [h19]

/-- C2 counterexample: requesting application page 3 from a provider whose
single page leaves only 10 filtered items stops exhausted with a 10-item
accumulator, yet returns total_results 40 and total_pages 2 — not the
accumulator count 10 and ceil(10/20) = 1 the claim states. -/
theorem c2_counterexample :
    (∃ st, searchLoop cexFetchOne filtersPage3 true ((filtersPage3.Page - 1) * 20 + 20) 10
        { collected := [], totalResults := 0, totalPages := 1, tmdbPage := 1,
          calls := [], exhausted := false } = some st ∧
      st.exhausted = true ∧ st.collected.length = 10) ∧
    (searchWithFilterPaging cexFetchOne filtersPage3 20 20 true true 10).map
      (fun pr => (pr.1.totalResults, pr.1.totalPages)) = some ((40 : Int), (2 : Int)) ∧
    ¬ ((40 : Int) = 10 ∧ (2 : Int) = 1) :=
  ⟨⟨_, rfl, by decide, by decide⟩, by decide, by decide⟩

theorem c2_witness :
    ∃ st out, searchLoop cexFetchOne filtersPage3 true
        ((filtersPage3.Page - 1) * 20 + 20) 10
        { collected := [], totalResults := 0, totalPages := 1, tmdbPage := 1,
          calls := [], exhausted := false } = some st ∧
      searchWithFilterPaging cexFetchOne filtersPage3 20 20 true true 10
        = some (out, st.calls) ∧
      (out.totalResults = if 1 < filtersPage3.Page then
          max (st.collected.length : Int)
            ((filtersPage3.Page - 1) * 20 + (out.results.length : Int))
        else (st.collected.length : Int)) ∧
      out.totalPages = (if 0 < out.totalResults then (out.totalResults + 19) / 20 else  1) := by
  refine ⟨_, _, rfl, rfl, ?_, ?_⟩
  · exact (c2_exhausted_recomputes_totals cexFetchOne filtersPage3 10 _ _ _
      (by decide) rfl (by decide) rfl).1
  · exact (c2_exhausted_recomputes_totals cexFetchOne filtersPage3 10 _ _ _
      (by decide) rfl (by decide) rfl).2.1

theorem c1_witness :
    ∃ st, searchLoop demoFetchA filtersPage2 true
        ((filtersPage2.Page - 1) * 20 + 20) 10
        { collected := [], totalResults := 0, totalPages := 1, tmdbPage := 1,
          calls := [], exhausted := false } = some st ∧
      ∃ k : Nat, 1 ≤ k ∧ st.calls = intPages k ∧
        st.collected = filteredAccUpTo demoFetchA filtersPage2 k ∧
        (((filteredAccUpTo demoFetchA filtersPage2 k).length : Int)
            ≥ (filtersPage2.Page - 1) * 20 + 20 ∨
          (k : Int) ≥ (demoFetchA (k : Int)).totalPages) := by
  refine ⟨_, rfl, ?_⟩
  obtain ⟨k, hk1, hcalls, hcoll, hexit, _, _⟩ :=
    (c1_stitcher_accumulates_from_page_one demoFetchA filtersPage2 10 _
      ((filtersPage2.Page - 1) * 20) (by decide) rfl rfl).2
  exact ⟨k, hk1, hcalls, hcoll, hexit⟩

/-- C4: a query-less search with at least one active filter and no explicit
movie/tv media kind fans out two discover calls — movie first, then tv — at
the same requested provider page, concatenates the movie results with the
tv results, and reports the sum of the two total-result counts and the
maximum of the two total-page counts. -/
theorem c4_all_types_fanout (provider : Provider) (fuel : Nat) (filters : searchFilters)
    (hpage : 1 ≤ filters.Page) (hm : filters.MediaType ≠ "movie")
    (ht : filters.MediaType ≠ "tv") (hne : filters.isEmptyF = false) :
    searchTMDB provider fuel "" filters =
      some ({ results :=
                (provider.discoverPage "movie" (discoverFiltersFromSearch filters "movie")
                  filters.Page).results
                ++ (provider.discoverPage "tv" (discoverFiltersFromSearch filters "tv")
                  filters.Page).results,
              page := filters.Page,
              totalPages :=
                max (provider.discoverPage "movie" (discoverFiltersFromSearch filters "movie")
                    filters.Page).totalPages
                  (provider.discoverPage "tv" (discoverFiltersFromSearch filters "tv")
                    filters.Page).totalPages,
              totalResults :=
                (provider.discoverPage "movie" (discoverFiltersFromSearch filters "movie")
                  filters.Page).totalResults
                + (provider.discoverPage "tv" (discoverFiltersFromSearch filters "tv")
                  filters.Page).totalResults },
        [ProviderCall.discoverCall "movie" (discoverFiltersFromSearch filters "movie")
          filters.Page,
         ProviderCall.discoverCall "tv" (discoverFiltersFromSearch filters "tv")
          filters.Page]) := by
  have hcl : (if filters.Page < 1 then { filters with Page := 1 } else filters)
      = filters := if_neg (not_lt.mpr hpage)
  have hmt : ¬ (filters.MediaType = "movie" ∨ filters.MediaType = "tv") := by
    intro h
    rcases h with h | h
    · exact hm h
    · exact ht h
  simp only [searchTMDB, hcl, hne, hmt, ne_eq, not_true_eq_false, if_false,
    Bool.false_eq_true, reduceIte]

theorem c4_witness :
    searchTMDB bigProvider 3 "" allFilters =
      some ({ results :=
                (bigProvider.discoverPage "movie" (discoverFiltersFromSearch allFilters "movie")
                  allFilters.Page).results
                ++ (bigProvider.discoverPage "tv" (discoverFiltersFromSearch allFilters "tv")
                  allFilters.Page).results,
              page := allFilters.Page,
              totalPages :=
                max (bigProvider.discoverPage "movie" (discoverFiltersFromSearch allFilters "movie")
                    allFilters.Page).totalPages
                  (bigProvider.discoverPage "tv" (discoverFiltersFromSearch allFilters "tv")
                    allFilters.Page).totalPages,
              totalResults :=
                (bigProvider.discoverPage "movie" (discoverFiltersFromSearch allFilters "movie")
                  allFilters.Page).totalResults
                + (bigProvider.discoverPage "tv" (discoverFiltersFromSearch allFilters "tv")
                  allFilters.Page).totalResults },
        [ProviderCall.discoverCall "movie" (discoverFiltersFromSearch allFilters "movie")
          allFilters.Page,
         ProviderCall.discoverCall "tv" (discoverFiltersFromSearch allFilters "tv")
          allFilters.Page]) :=
  c4_all_types_fanout bigProvider 3 allFilters (by decide) (by decide) (by decide) (by decide)

/-- C6 (amended): a request with a non-empty query whose media kind is not
movie or tv is rejected before any provider call; every other request is
not rejected — in particular, unparseable numeric filter values (minimum
rating, minimum votes, year bounds) are silently dropped rather than
rejected, and a query-less request with a bad media kind is coerced to the
all-types kind. -/
theorem c6_malformed_input :
    (∀ (provider : Provider) (fuel : Nat) (req : SearchRequest),
      (trimSpace req.Q ≠ "" ∧ (searchFiltersFromRequest req).MediaType ≠ "movie" ∧
        (searchFiltersFromRequest req).MediaType ≠ "tv") →
      getSearch provider fuel req = (SearchOutcome.badRequest, [])) ∧
    (∀ (provider : Provider) (fuel : Nat) (req : SearchRequest),
      ¬ (trimSpace req.Q ≠ "" ∧ (searchFiltersFromRequest req).MediaType ≠ "movie" ∧
        (searchFiltersFromRequest req).MediaType ≠ "tv") →
      (getSearch provider fuel req).1 ≠ SearchOutcome.badRequest) ∧
    (∀ req : SearchRequest, goParseFloat (trimSpace req.MinRating) = none →
      (searchFiltersFromRequest req).MinRating = none) ∧
    (∀ req : SearchRequest, goAtoi (trimSpace req.MinVotes) = none →
      (searchFiltersFromRequest req).MinVotes = none) ∧
    (∀ req : SearchRequest, goAtoi (trimSpace req.YearFrom) = none →
      (searchFiltersFromRequest req).YearFrom = none) ∧
    (∀ req : SearchRequest, goAtoi (trimSpace req.YearTo) = none →
      (searchFiltersFromRequest req).YearTo = none) ∧
    (∀ req : SearchRequest, trimSpace req.MediaType ≠ "movie" →
      trimSpace req.MediaType ≠ "tv" →
      (searchFiltersFromRequest req).MediaType = "all") := by
  refine ⟨?_, ?_, ?_, ?_, ?_, ?_, ?_⟩
  · intro provider fuel req h
    unfold getSearch
    rw [if_pos h]
  · intro provider fuel req h
    unfold getSearch
    rw [if_neg h]
    cases searchTMDB provider fuel (trimSpace req.Q) (searchFiltersFromRequest req) with
    | none => simp
    | some pr => simp
  · intro req h
    simp only [searchFiltersFromRequest]
    by_cases hv : trimSpace req.MinRating ≠ ""
    · rw [if_pos hv, h]
    · rw [if_neg hv]
  · intro req h
    simp only [searchFiltersFromRequest]
    by_cases hv : trimSpace req.MinVotes ≠ ""
    · rw [if_pos hv, h]
    · rw [if_neg hv]
  · intro req h
    simp only [searchFiltersFromRequest]
    by_cases hv : trimSpace req.YearFrom ≠ ""
    · rw [if_pos hv, h]
    · rw [if_neg hv]
  · intro req h
    simp only [searchFiltersFromRequest]
    by_cases hv : trimSpace req.YearTo ≠ ""
    · rw [if_pos hv, h]
    · rw [if_neg hv]
  · intro req h1 h2
    simp only [searchFiltersFromRequest]
    rw [if_pos ⟨h1, h2⟩]

/-- C6 counterexample: a request with query x, media kind movie and the
unparseable minimum rating abc is not rejected — the rating filter is
silently dropped and a provider search call for page 1 is issued. -/
theorem c6_counterexample :
    goParseFloat (trimSpace badRatingReq.MinRating) = none ∧
    (getSearch bigProvider 5 badRatingReq).1 ≠ SearchOutcome.badRequest ∧
    (getSearch bigProvider 5 badRatingReq).2
      = [ProviderCall.searchCall "x" "movie" 1] :=
  ⟨by decide, by decide, by decide⟩
